import Mathlib

/-!
Shallow embedding of the hub simulation core of `online_game_backend`
(src/src/players.rs, src/src/hubs.rs, src/src/events.rs).

Modelling conventions:
* Rust `f64`/`f32` values are modelled as rationals (`ℚ`); every operation the
  embedded code performs on them (addition, division by constants,
  comparison, absolute value, componentwise capping) is exact.
* The cast `as i32` applied to an `f32` is truncation toward zero
  (`ratTrunc`); the cast `as usize` applied to an `f64` is truncation toward
  zero saturating at 0 (`f64ToUsize`); the cast `u32 as i32` is two's
  complement wrapping (`wrap32`).
* `usize` division by zero and `i32` remainder by zero panic in Rust; the
  functions that can panic return `Option`, with `none` for the panic.
* `Uuid::new_v4()` (a fresh random id) is modelled as an explicit `fresh`
  parameter.
* `yaw_coordinate_change` (src/src/players.rs lines 52-58) computes
  `(sin (yaw·π/180), cos (yaw·π/180))` with `f64` trigonometry.  The
  embedding passes this direction function around as a parameter
  `ycc : Int → Coordinates`; concrete evaluations below only ever use it at
  `yaw = 0`, where the code computes exactly `sin 0 = 0`, `cos 0 = 1`.
-/

namespace Game

/-- 2D float vector: `Coordinates` in src/src/players.rs, `Vec2` in
src/src/events.rs and src/src/hubs.rs. -/
structure Coordinates where
  x : ℚ
  y : ℚ
deriving DecidableEq

/-- `Coordinates::combine` (src/src/players.rs lines 45-49): componentwise
addition (the Rust method mutates `self` and returns it). -/
def Coordinates.combine (self other : Coordinates) : Coordinates :=
  ⟨self.x + other.x, self.y + other.y⟩

/-- `Coordinates::cap` (src/src/players.rs lines 36-43): each component whose
absolute value exceeds the corresponding component of `max` in absolute value
is replaced by that component of `max`. -/
def Coordinates.cap (self max : Coordinates) : Coordinates :=
  ⟨if |self.x| > |max.x| then max.x else self.x,
   if |self.y| > |max.y| then max.y else self.y⟩

/-- The `Stat` enumeration (src/src/players.rs lines 257-267). -/
inductive Stat where
  | HealthRegen
  | MaxHealth
  | BodyDamage
  | BulletSpeed
  | BulletPenetration
  | BulletDamage
  | Reload
  | MovementSpeed
deriving DecidableEq

/-- The discriminant of a `Stat` (`stat as usize`). -/
def Stat.idx : Stat → Fin 8
  | .HealthRegen => 0
  | .MaxHealth => 1
  | .BodyDamage => 2
  | .BulletSpeed => 3
  | .BulletPenetration => 4
  | .BulletDamage => 5
  | .Reload => 6
  | .MovementSpeed => 7

/-- `Stat::for_child` (src/src/players.rs lines 270-277). -/
def Stat.for_child (value : Nat) : Option Stat :=
  match value with
  | 5 => some .BodyDamage
  | 4 => some .MaxHealth
  | 3 => some .MovementSpeed
  | _ => none

/-- The fields of `Cannon` (src/src/players.rs lines 280-286), parametrised by
the type of the `bullet` tank reference so that `Tank` below can recurse
through it. -/
structure CannonData (T : Type) where
  yaw : Int
  delay : Int
  size : Int
  bullet : T

/-- `Tank` (src/src/players.rs lines 288-294): cannons, `base_stats: [i32; 8]`,
`size: f64`, `id: i32`.  `Arc<Tank>` sharing is immaterial to the semantics, so
tank references are modelled as the tank value itself. -/
inductive Tank where
  | mk (cannons : List (CannonData Tank)) (base_stats : Fin 8 → Int)
      (size : ℚ) (id : Int)

/-- `Cannon` with its `bullet: Arc<Tank>` field. -/
abbrev Cannon := CannonData Tank

def Tank.cannons : Tank → List Cannon
  | .mk c _ _ _ => c

def Tank.base_stats : Tank → Fin 8 → Int
  | .mk _ b _ _ => b

def Tank.size : Tank → ℚ
  | .mk _ _ s _ => s

def Tank.id : Tank → Int
  | .mk _ _ _ i => i

/-- `EntityType` (src/src/players.rs lines 302-306) with the `Player` and
`Bullet` payloads (src/src/players.rs lines 308-317) inlined.  `Uuid` ids are
modelled as `Nat`. -/
inductive EntityType where
  | Player (points : Int) (score : Int)
  | Bullet (author : Nat)

/-- `Entity` (src/src/players.rs lines 100-116).  `levels: [u8; 8]` is
modelled as `Fin 8 → Nat`; in every state the code can reach, each level is
below `MAX_LEVEL = 10`, far from the `u8` wrap. -/
structure Entity where
  id : Nat
  coordinates : Coordinates
  velocity : Coordinates
  max_velocity : Coordinates
  acceleration : Coordinates
  yaw : Int
  tank : Tank
  levels : Fin 8 → Nat
  stats : EntityType
  shooting : Bool

/-- `Entity::MAX_LEVEL` (src/src/players.rs line 163). -/
def MAX_LEVEL : Nat := 10

/-- `Entity::level` (src/src/players.rs lines 135-137). -/
def Entity.level (e : Entity) (s : Stat) : Nat :=
  e.levels s.idx

/-- `Entity::stat_multiplier` (src/src/players.rs lines 139-144):
`1 - level/20` for `Reload`, `1 + level/10` for every other stat. -/
def Entity.stat_multiplier (e : Entity) (s : Stat) : ℚ :=
  match s with
  | .Reload => 1 - (e.level s : ℚ) / 20
  | _ => 1 + (e.level s : ℚ) / 10

/-- Truncation toward zero: the value of the Rust cast `as i32` on a small
float. -/
def ratTrunc (q : ℚ) : Int :=
  if 0 ≤ q then ⌊q⌋ else ⌈q⌉

/-- `Entity::base_stat` (src/src/players.rs lines 150-152). -/
def Entity.base_stat (e : Entity) (s : Stat) : Int :=
  e.tank.base_stats s.idx

/-- `Entity::stat` (src/src/players.rs lines 154-156):
`(stat_multiplier(stat) * base_stat(stat) as f32) as i32`. -/
def Entity.stat (e : Entity) (s : Stat) : Int :=
  ratTrunc (e.stat_multiplier s * (e.base_stat s : ℚ))

/-- `Entity::toggle_shooting` (src/src/players.rs lines 146-148). -/
def Entity.toggle_shooting (e : Entity) : Entity :=
  { e with shooting := !e.shooting }

/-- The shooting user event as the code routes it: `listen_for_messages`
(src/src/players.rs lines 88-93) maps the shooting event directly to
`toggle_shooting` without reading the event's data, so the wire payload
(`shooting: bool` in the `SetShooting` variant of `UserEvent`,
src/src/events.rs lines 10-19) is a parameter the handler ignores. -/
def Entity.handle_set_shooting (e : Entity) (_shooting : Bool) : Entity :=
  e.toggle_shooting

/-- Two's complement wrap into `i32`: the Rust casts `u32 as i32` and the
release-mode behaviour of `i32` multiplication overflow. -/
def wrap32 (n : Int) : Int :=
  (n + 2 ^ 31) % 2 ^ 32 - 2 ^ 31

/-- `Entity::active_cannons` (src/src/players.rs lines 158-161): filters the
tank's cannons by `c.delay * speed % tick as i32 == 0` where
`speed = stat(Reload)`.  All arithmetic is `i32`; `% 0` panics (`none`). -/
def Entity.active_cannons (e : Entity) (tick : Nat) : Option (List Cannon) :=
  let speed := e.stat .Reload
  let tickI := wrap32 tick
  if tickI = 0 then none
  else some (e.tank.cannons.filter fun c =>
    Int.tmod (wrap32 (c.delay * speed)) tickI == 0)

/-- `Entity::increment_level` (src/src/players.rs lines 167-179). -/
def Entity.increment_level (e : Entity) (s : Stat) : Entity :=
  let current_level := e.level s
  if current_level + 1 ≥ MAX_LEVEL then e
  else
    match e.stats with
    | .Player points score =>
      if points ≤ 0 then e
      else { e with stats := .Player (points - 1) score,
                    levels := Function.update e.levels s.idx (current_level + 1) }
    | _ => e

/-- `Entity::create_bullet` (src/src/players.rs lines 181-202).  `ycc` stands
for `yaw_coordinate_change`, `fresh` for the freshly generated `Uuid`. -/
def Entity.create_bullet (e : Entity) (ycc : Int → Coordinates) (fresh : Nat)
    (cannon : Cannon) : Entity :=
  let yaw := e.yaw + cannon.yaw
  let direction := ycc yaw
  { id := fresh
    coordinates := e.coordinates
    velocity := direction
    max_velocity := ⟨0, 0⟩
    acceleration := ⟨direction.x / 10, direction.y / 10⟩
    yaw := yaw
    tank := cannon.bullet
    levels := fun i =>
      match Stat.for_child i with
      | some s => e.level s
      | none => 0
    stats := .Bullet e.id
    shooting := false }

/-- `Entity::move_once` (src/src/players.rs lines 211-214):
`coordinates += velocity`; `velocity = (velocity + acceleration).cap(max_velocity)`. -/
def Entity.move_once (e : Entity) : Entity :=
  { e with coordinates := e.coordinates.combine e.velocity,
           velocity := (e.velocity.combine e.acceleration).cap e.max_velocity }

/-- `DirectionChange` (src/src/events.rs lines 45-51). -/
structure DirectionChange where
  up : Bool
  left : Bool
  down : Bool
  right : Bool
deriving DecidableEq

/-- The Rust cast `bool as i32`. -/
def boolToInt (b : Bool) : Int :=
  if b then 1 else 0

/-- `DirectionChange::to_vec` (src/src/events.rs lines 53-60):
`x = right - left`, `y = down - up`. -/
def DirectionChange.to_vec (d : DirectionChange) : Coordinates :=
  ⟨((boolToInt d.right - boolToInt d.left : Int) : ℚ),
   ((boolToInt d.down - boolToInt d.up : Int) : ℚ)⟩

/-- `Entity::change_direction` (src/src/players.rs lines 226-237):
`x_mod = down - up`, `y_mod = right - left`;
`acceleration = (x_mod/10, y_mod/10)`; `max_velocity = (x_mod, y_mod)`. -/
def Entity.change_direction (e : Entity) (direction : DirectionChange) : Entity :=
  let x_mod : Int := boolToInt direction.down - boolToInt direction.up
  let y_mod : Int := boolToInt direction.right - boolToInt direction.left
  { e with acceleration := ⟨(x_mod : ℚ) / 10, (y_mod : ℚ) / 10⟩,
           max_velocity := ⟨(x_mod : ℚ), (y_mod : ℚ)⟩ }

/-- Clamp a component to `[-m, m]`. -/
def clampTo (m x : ℚ) : ℚ :=
  if x > m then m else if x < -m then -m else x

/-- Modelled from the spec: `Entity::update_movement(arena_extent)` is called
from `Hub::update_entity` (src/src/hubs.rs line 84) but its body is absent
from src/ (src/src/players.rs contains only the older `move_once`, which has
no coordinate clamp).  Spec section 4.1: `coordinates += velocity`, then clamp
each coordinate component to `[-arena_extent, +arena_extent]`; then
`velocity += acceleration` capped componentwise against `max_velocity`. -/
def Entity.update_movement (e : Entity) (extent : ℚ) : Entity :=
  let c := e.coordinates.combine e.velocity
  { e with coordinates := ⟨clampTo extent c.x, clampTo extent c.y⟩,
           velocity := (e.velocity.combine e.acceleration).cap e.max_velocity }

/-- The Rust cast `f64 as usize`: truncation toward zero, saturating at 0 for
negative inputs. -/
def f64ToUsize (q : ℚ) : Nat :=
  (⌊q⌋).toNat

/-- `PlayerPositions<100>` (src/src/hubs.rs lines 215-220): 100 tiles, each an
insertion-ordered id set (`IndexSet<Id>`, modelled as a duplicate-free list),
plus the tile scale. -/
structure PlayerPositions where
  tiles : List (List Nat)
  scale : Nat

/-- `PlayerPositions::new` (src/src/hubs.rs lines 224-229):
`scale = size as usize / 10`. -/
def PlayerPositions.new (size : ℚ) : PlayerPositions :=
  { tiles := List.replicate 100 [], scale := f64ToUsize size / 10 }

/-- `PlayerPositions::index` (src/src/hubs.rs lines 231-235):
`x = pos.x.abs() as usize / scale`, `y` likewise, index `I/10 * y + x` with
`I = 100`.  `usize` division by zero panics, hence `none` when `scale = 0`. -/
def PlayerPositions.index (g : PlayerPositions) (pos : Coordinates) : Option Nat :=
  if g.scale = 0 then none
  else some (100 / 10 * (f64ToUsize |pos.y| / g.scale) + f64ToUsize |pos.x| / g.scale)

/-- `PlayerPositions::get_mut` (src/src/hubs.rs lines 237-240): the outer
`Option` is the panic of `index`; the inner one is `tiles.get_mut(index)`. -/
def PlayerPositions.get_mut (g : PlayerPositions) (pos : Coordinates) :
    Option (Option (List Nat)) :=
  (g.index pos).map fun i => g.tiles.get? i

/-- `PlayerPositions::add` (src/src/hubs.rs lines 242-246): `IndexSet::insert`
appends the id if absent and returns whether it was inserted; an out-of-range
index yields `false` and leaves the grid unchanged. -/
def PlayerPositions.add (g : PlayerPositions) (coords : Coordinates) (id : Nat) :
    Option (PlayerPositions × Bool) :=
  match g.index coords with
  | none => none
  | some i =>
    match g.tiles.get? i with
    | none => some (g, false)
    | some tile =>
      if id ∈ tile then some (g, false)
      else some ({ g with tiles := g.tiles.set i (tile ++ [id]) }, true)

/-- `IndexSet::swap_remove`: replace the removed element by the last one and
drop the last slot. -/
def swapRemoveList (l : List Nat) (id : Nat) : List Nat :=
  match l.findIdx? (fun a => a == id) with
  | none => l
  | some i =>
    match l.getLast? with
    | none => l
    | some last => (l.set i last).dropLast

/-- `PlayerPositions::remove` (src/src/hubs.rs lines 248-252). -/
def PlayerPositions.remove (g : PlayerPositions) (coords : Coordinates) (id : Nat) :
    Option PlayerPositions :=
  match g.index coords with
  | none => none
  | some i =>
    match g.tiles.get? i with
    | none => some g
    | some tile => some { g with tiles := g.tiles.set i (swapRemoveList tile id) }

/-- A concrete cannonless tank used for evaluations. -/
def tank0 : Tank :=
  .mk [] (fun _ => 5) 1 0

/-- A concrete player entity (tank `tank0`, one upgrade point, level 0
everywhere). -/
def ent0 : Entity :=
  { id := 1
    coordinates := ⟨0, 0⟩
    velocity := ⟨0, 0⟩
    max_velocity := ⟨0, 0⟩
    acceleration := ⟨0, 0⟩
    yaw := 0
    tank := tank0
    levels := fun _ => 0
    stats := .Player 1 0
    shooting := false }

/-- All-false direction input (`DirectionChange{false,false,false,false}`). -/
def dirNone : DirectionChange := ⟨false, false, false, false⟩

/-- Direction input with only `up` pressed. -/
def dirUp : DirectionChange := ⟨true, false, false, false⟩

/-- `ent0` with a nonzero previous `max_velocity`. -/
def ent1 : Entity := { ent0 with max_velocity := ⟨1, 1⟩ }

/-- A concrete stand-in for `yaw_coordinate_change`, evaluated only at
`yaw = 0`, where the code's `f64` trigonometry returns exactly
`(sin 0, cos 0) = (0, 1)`. -/
def dirYawZero : Int → Coordinates := fun _ => ⟨0, 1⟩

/-- A concrete cannon with `yaw = 0`, `delay = 1`, bullet tank `tank0`. -/
def cannonZ : Cannon := ⟨0, 1, 0, tank0⟩

/-- A tank with the single cannon `cannonZ` and all base stats 1. -/
def tankR : Tank := .mk [⟨0, 1, 0, tank0⟩] (fun _ => 1) 1 0

/-- `ent0` equipped with `tankR`. -/
def entR : Entity := { ent0 with tank := tankR }

/-! Helper lemmas. -/

theorem ratTrunc_mono {a b : ℚ} (h : a ≤ b) : ratTrunc a ≤ ratTrunc b := by
  unfold ratTrunc
  by_cases ha : 0 ≤ a <;> by_cases hb : 0 ≤ b
  · simp only [ha, hb, if_pos]
    exact Int.floor_le_floor h
  · exact absurd (le_trans ha h) hb
  · simp only [ha, hb, if_pos, if_neg, if_true, if_false]
    refine le_trans (Int.ceil_le.mpr ?_) (Int.floor_nonneg.mpr hb)
    exact_mod_cast le_of_not_le ha
  · simp only [ha, hb, if_neg, if_false]
    exact Int.ceil_le_ceil h

theorem cap_zero (v : Coordinates) : v.cap ⟨0, 0⟩ = ⟨0, 0⟩ := by
  simp only [Coordinates.cap, abs_zero, Coordinates.mk.injEq]
  constructor
  · split
    · rfl
    · next h => exact abs_eq_zero.mp (le_antisymm (le_of_not_lt h) (abs_nonneg _))
  · split
    · rfl
    · next h => exact abs_eq_zero.mp (le_antisymm (le_of_not_lt h) (abs_nonneg _))

theorem combine_zero (v : Coordinates) : v.combine ⟨0, 0⟩ = v := by
  simp [Coordinates.combine]

theorem clampTo_abs_le {m : ℚ} (hm : 0 ≤ m) (x : ℚ) : |clampTo m x| ≤ m := by
  unfold clampTo
  split
  · rw [abs_of_nonneg hm]
  · split
    · simp [abs_of_nonneg hm]
    · next h1 h2 => exact abs_le.mpr ⟨le_of_not_lt h2, le_of_not_lt h1⟩

theorem wrap32_eq_self {n : Int} (h1 : -2 ^ 31 ≤ n) (h2 : n < 2 ^ 31) :
    wrap32 n = n := by
  unfold wrap32
  rw [Int.emod_eq_of_lt (by omega) (by omega)]
  omega

theorem tmod_zero_iff_emod_zero (a b : Int) : a.tmod b = 0 ↔ a % b = 0 := by
  rw [← Int.dvd_iff_tmod_eq_zero, Int.dvd_iff_emod_eq_zero]


/-! Claim C1. -/

/-- C1, amended: `change_direction` sets `max_velocity` to
`(down - up, right - left)` — the axes of `to_vec` swapped — and sets
`acceleration` to `max_velocity / 10` unconditionally: there is no
coast-to-stop branch reading the previous `max_velocity`.  Position and
velocity are untouched. -/
theorem change_direction_c1 (e : Entity) (d : DirectionChange) :
    (e.change_direction d).max_velocity = ⟨d.to_vec.y, d.to_vec.x⟩ ∧
    (e.change_direction d).acceleration =
      ⟨(e.change_direction d).max_velocity.x / 10,
       (e.change_direction d).max_velocity.y / 10⟩ ∧
    (e.change_direction d).velocity = e.velocity ∧
    (e.change_direction d).coordinates = e.coordinates :=
  ⟨rfl, rfl, rfl, rfl⟩

/-- C1, counterexample to the claim as stated.  With only `up` pressed the
claim demands `max_velocity = to_vec = (0, -1)`, but the code stores
`(-1, 0)`; and with no key pressed and previous `max_velocity = (1, 1)` the
claim demands `acceleration = -max_velocity/10 = (-1/10, -1/10)`, but the
code stores `(0, 0)`. -/
theorem change_direction_c1_counterexample :
    (ent0.change_direction dirUp).max_velocity ≠ dirUp.to_vec ∧
    (ent1.change_direction dirNone).acceleration ≠
      ⟨-ent1.max_velocity.x / 10, -ent1.max_velocity.y / 10⟩ := by
  constructor
  · decide
  · intro h
    have hx := congrArg Coordinates.x h
    simp [Entity.change_direction, ent1, ent0, dirNone, boolToInt] at hx
    norm_num at hx

/-! Claim C5. -/

/-- C5, amended: the shooting user event negates the entity's `shooting`
flag (`toggle_shooting`); the wire payload is ignored, so the result is the
complement of the previous value rather than a payload-determined value. -/
theorem set_shooting_c5 (e : Entity) (b b' : Bool) :
    e.handle_set_shooting b = { e with shooting := !e.shooting } ∧
    e.handle_set_shooting b = e.handle_set_shooting b' :=
  ⟨rfl, rfl⟩

/-- C5, counterexample to the claim as stated: handling the shooting event
with payload `shooting = false` on an entity whose flag is already `false`
leaves the flag `true`, not `false`. -/
theorem set_shooting_c5_counterexample :
    ¬ ((ent0.handle_set_shooting false).shooting = false) := by
  decide

/-! Claim C7. -/

/-- `increment_level` under the success conditions. -/
theorem increment_level_pos (e : Entity) (s : Stat) (p sc : Int)
    (hst : e.stats = .Player p sc) (hp : 0 < p)
    (hlt : e.level s + 1 < MAX_LEVEL) :
    e.increment_level s =
      { e with stats := .Player (p - 1) sc,
               levels := Function.update e.levels s.idx (e.level s + 1) } := by
  unfold Entity.increment_level
  rw [if_neg (by omega), hst]
  simp only []
  rw [if_neg (by omega)]

/-- `increment_level` outside the success conditions is the identity. -/
theorem increment_level_noop (e : Entity) (s : Stat)
    (h : ¬ ((∃ p sc, e.stats = .Player p sc ∧ 0 < p) ∧ e.level s + 1 < MAX_LEVEL)) :
    e.increment_level s = e := by
  unfold Entity.increment_level
  by_cases hl : e.level s + 1 ≥ MAX_LEVEL
  · rw [if_pos hl]
  · rw [if_neg hl]
    have hb : e.level s + 1 < MAX_LEVEL := by omega
    cases hst : e.stats with
    | Player p sc =>
      have hp : p ≤ 0 := by
        by_contra hp
        exact h ⟨⟨p, sc, hst, lt_of_not_le hp⟩, hb⟩
      simp only []
      rw [if_pos hp]
    | Bullet a => rfl

/-- C7, confirmed: `increment_level(s)` decrements `points` and increments
`levels[s]` exactly when the role is `Player`, `points > 0` and
`levels[s] + 1 < MAX_LEVEL`; in every other case the entity is left
completely unchanged, and at the cap (`levels[s] = MAX_LEVEL - 1`) any number
of repeated upgrades leaves the entity unchanged. -/
theorem increment_level_c7 (e : Entity) (s : Stat) :
    (∀ p sc, e.stats = .Player p sc → 0 < p → e.level s + 1 < MAX_LEVEL →
      e.increment_level s =
        { e with stats := .Player (p - 1) sc,
                 levels := Function.update e.levels s.idx (e.level s + 1) }) ∧
    (¬ ((∃ p sc, e.stats = .Player p sc ∧ 0 < p) ∧ e.level s + 1 < MAX_LEVEL) →
      e.increment_level s = e) ∧
    (e.level s = MAX_LEVEL - 1 →
      ∀ n, (fun a => a.increment_level s)^[n] e = e) := by
  refine ⟨increment_level_pos e s, increment_level_noop e s, ?_⟩
  intro h9 n
  exact Function.iterate_fixed (increment_level_noop e s (by omega)) n

/-- C7, witness: a player with one point and level 0 in `MaxHealth` spends
the point and reaches level 1. -/
theorem increment_level_c7_witness :
    ent0.increment_level .MaxHealth =
      { ent0 with stats := .Player 0 0,
                  levels := Function.update ent0.levels Stat.MaxHealth.idx 1 } := by
  exact (increment_level_c7 ent0 .MaxHealth).1 1 0 rfl (by decide) (by decide)

/-! Claim C6. -/

/-- For every stat other than `Reload`, the multiplier is `1 + level/10`. -/
theorem stat_multiplier_of_ne (e : Entity) (s : Stat) (h : s ≠ .Reload) :
    e.stat_multiplier s = 1 + (e.level s : ℚ) / 10 := by
  cases s <;> first | exact absurd rfl h | rfl

/-- C6, amended: after a successful `LevelUpgrade(s)` with a non-negative
base stat, the code's integer-valued `stat(s)` — the `f32` product
`multiplier · base_stats[s]` truncated by the cast `as i32` — is
greater than or equal to its previous value for `s ≠ Reload` and less than
or equal to it for `s = Reload`.  Strict monotonicity fails because of the
truncation (see the counterexample). -/
theorem stat_c6 (e : Entity) (s : Stat) (p sc : Int)
    (hst : e.stats = .Player p sc) (hp : 0 < p)
    (hlt : e.level s + 1 < MAX_LEVEL) (hbase : 0 ≤ e.base_stat s) :
    (s ≠ .Reload → e.stat s ≤ (e.increment_level s).stat s) ∧
    (s = .Reload → (e.increment_level s).stat s ≤ e.stat s) := by
  have he := increment_level_pos e s p sc hst hp hlt
  have hlv : (e.increment_level s).level s = e.level s + 1 := by
    rw [he]
    simp [Entity.level]
  have hbs : (e.increment_level s).base_stat s = e.base_stat s := by
    rw [he]
    simp [Entity.base_stat]
  constructor
  · intro hne
    have hm : e.stat_multiplier s ≤ (e.increment_level s).stat_multiplier s := by
      rw [stat_multiplier_of_ne e s hne, stat_multiplier_of_ne _ s hne, hlv]
      push_cast
      linarith
    unfold Entity.stat
    rw [hbs]
    exact ratTrunc_mono (mul_le_mul_of_nonneg_right hm (by exact_mod_cast hbase))
  · intro heq
    subst heq
    have hm : (e.increment_level .Reload).stat_multiplier .Reload ≤
        e.stat_multiplier .Reload := by
      simp only [Entity.stat_multiplier]
      rw [hlv]
      push_cast
      linarith
    unfold Entity.stat
    rw [hbs]
    exact ratTrunc_mono (mul_le_mul_of_nonneg_right hm (by exact_mod_cast hbase))

/-- C6, counterexample to the claim as stated: with base stat 5 and level
going from 0 to 1, the multiplier moves from 1 to 11/10 but the truncated
stat stays 5 (the code computes `(1.1 * 5) as i32 = 5`), so a successful
upgrade does not strictly increase `stat(s)`. -/
theorem stat_c6_counterexample :
    (ent0.increment_level .MaxHealth).level .MaxHealth = 1 ∧
    ¬ (ent0.stat .MaxHealth < (ent0.increment_level .MaxHealth).stat .MaxHealth) := by
  have he := increment_level_pos ent0 .MaxHealth 1 0 rfl (by decide) (by decide)
  have h1 : ent0.stat .MaxHealth = 5 := by
    unfold Entity.stat Entity.stat_multiplier Entity.base_stat Entity.level ratTrunc
    norm_num [ent0, tank0, Stat.idx, Tank.base_stats]
  have h2 : (ent0.increment_level .MaxHealth).stat .MaxHealth = 5 := by
    rw [he]
    unfold Entity.stat Entity.stat_multiplier Entity.base_stat Entity.level ratTrunc
    norm_num [ent0, tank0, Stat.idx, Tank.base_stats]
  constructor
  · rw [he]
    simp [Entity.level, ent0]
  · rw [h1, h2]
    omega

/-- C6, witness for the amended theorem at `ent0` and `MaxHealth`. -/
theorem stat_c6_witness :
    (Stat.MaxHealth ≠ .Reload →
      ent0.stat .MaxHealth ≤ (ent0.increment_level .MaxHealth).stat .MaxHealth) ∧
    (Stat.MaxHealth = .Reload →
      (ent0.increment_level .MaxHealth).stat .MaxHealth ≤ ent0.stat .MaxHealth) :=
  stat_c6 ent0 .MaxHealth 1 0 rfl (by decide) (by decide) (by decide)

/-! Claim C8. -/

/-- C8, amended: for `0 < tick < 2^31` (where the `u32 as i32` cast is
value-preserving) and cannons whose product `delay · stat(Reload)` does not
overflow `i32`, `active_cannons(tick)` yields exactly the cannons with
`delay · stat(Reload) ≡ 0 (mod tick)`, in the tank's cannon-list order.  For
`tick ≥ 2^31` the cast changes the modulus (see the counterexample). -/
theorem active_cannons_c8 (e : Entity) (tick : Nat)
    (h1 : 0 < tick) (h2 : tick < 2 ^ 31)
    (h3 : ∀ c ∈ e.tank.cannons, (c.delay * e.stat .Reload).natAbs < 2 ^ 31) :
    e.active_cannons tick =
      some (e.tank.cannons.filter fun c =>
        (c.delay * e.stat .Reload) % (tick : Int) == 0) := by
  have ht : wrap32 (tick : Int) = (tick : Int) := by
    apply wrap32_eq_self
    · have : (0 : Int) ≤ (tick : Int) := Int.ofNat_nonneg tick
      omega
    · exact_mod_cast h2
  unfold Entity.active_cannons
  simp only [ht]
  rw [if_neg (by omega)]
  refine congrArg some ?_
  apply List.filter_congr
  intro c hc
  have hp := h3 c hc
  have hw : wrap32 (c.delay * e.stat .Reload) = c.delay * e.stat .Reload := by
    apply wrap32_eq_self <;> omega
  simp only [hw]
  rw [Bool.eq_iff_iff]
  simp only [beq_iff_eq]
  exact tmod_zero_iff_emod_zero _ _

/-- C8, counterexample to the claim as stated: at `tick = 2^32 - 1` the cast
`tick as i32` yields `-1`, so the single cannon with
`delay · stat(Reload) = 1` passes the filter even though
`1 ≢ 0 (mod 4294967295)`. -/
theorem active_cannons_c8_counterexample :
    (entR.active_cannons 4294967295).map (fun l => l.map fun c => c.delay) =
      some [1] ∧
    (1 * entR.stat .Reload) % ((4294967295 : Nat) : Int) ≠ 0 := by
  have hst : entR.stat .Reload = 1 := by
    unfold Entity.stat Entity.stat_multiplier Entity.base_stat Entity.level ratTrunc
    norm_num [entR, ent0, tankR, Stat.idx, Tank.base_stats]
  constructor
  · simp only [Entity.active_cannons, hst]
    decide
  · rw [hst]
    decide

/-- C8, witness for the amended theorem: at `tick = 2` the delay-1 cannon of
`entR` is filtered out, matching the divisibility condition. -/
theorem active_cannons_c8_witness :
    entR.active_cannons 2 =
      some (entR.tank.cannons.filter fun c =>
        (c.delay * entR.stat .Reload) % ((2 : Nat) : Int) == 0) := by
  apply active_cannons_c8 entR 2 (by decide) (by decide)
  intro c hc
  have hst : entR.stat .Reload = 1 := by
    unfold Entity.stat Entity.stat_multiplier Entity.base_stat Entity.level ratTrunc
    norm_num [entR, ent0, tankR, Stat.idx, Tank.base_stats]
  have hc' : c = (⟨0, 1, 0, tank0⟩ : Cannon) := by
    simpa [entR, ent0, tankR, Tank.cannons] using hc
  rw [hst, hc']
  decide

/-! Claim C4. -/

/-- C4, amended: `create_bullet` returns an entity with role `Bullet` whose
author is the owner's id, `tank = cannon.bullet`, coordinates equal to the
owner's, `yaw = owner.yaw + cannon.yaw`, velocity equal to the direction
vector computed by `yaw_coordinate_change` for that yaw,
`max_velocity = (0,0)`, and `acceleration = +velocity/10` — the same sign as
the velocity, not the claimed `-velocity/10`. -/
theorem create_bullet_c4 (e : Entity) (ycc : Int → Coordinates) (fresh : Nat)
    (c : Cannon) :
    (e.create_bullet ycc fresh c).stats = .Bullet e.id ∧
    (e.create_bullet ycc fresh c).tank = c.bullet ∧
    (e.create_bullet ycc fresh c).coordinates = e.coordinates ∧
    (e.create_bullet ycc fresh c).yaw = e.yaw + c.yaw ∧
    (e.create_bullet ycc fresh c).velocity = ycc (e.yaw + c.yaw) ∧
    (e.create_bullet ycc fresh c).acceleration =
      ⟨(e.create_bullet ycc fresh c).velocity.x / 10,
       (e.create_bullet ycc fresh c).velocity.y / 10⟩ ∧
    (e.create_bullet ycc fresh c).max_velocity = ⟨0, 0⟩ :=
  ⟨rfl, rfl, rfl, rfl, rfl, rfl, rfl⟩

/-- C4, counterexample to the claim as stated: at yaw 0 the bullet's velocity
is `(0, 1)` and its acceleration is `(0, 1/10)`, not `-velocity/10 = (0, -1/10)`
— the bullet accelerates instead of decelerating. -/
theorem create_bullet_c4_counterexample :
    (ent0.create_bullet dirYawZero 2 cannonZ).acceleration ≠
      ⟨-(ent0.create_bullet dirYawZero 2 cannonZ).velocity.x / 10,
       -(ent0.create_bullet dirYawZero 2 cannonZ).velocity.y / 10⟩ := by
  intro h
  have hy := congrArg Coordinates.y h
  simp [Entity.create_bullet, dirYawZero] at hy
  norm_num at hy

/-! Claim C10. -/

/-- The velocity cap against `max_velocity = (0,0)` zeroes the velocity on
every `move_once`. -/
theorem move_once_velocity_zero (e : Entity) (h : e.max_velocity = ⟨0, 0⟩) :
    (e.move_once).velocity = ⟨0, 0⟩ := by
  unfold Entity.move_once
  simp only [h, cap_zero]

/-- An entity with zero velocity and zero `max_velocity` is a fixed point of
`move_once`. -/
theorem move_once_fixed (e : Entity) (hv : e.velocity = ⟨0, 0⟩)
    (hm : e.max_velocity = ⟨0, 0⟩) : e.move_once = e := by
  obtain ⟨i, co, v, mv, a, yw, tk, lv, st, sh⟩ := e
  simp only at hv hm
  subst hv
  subst hm
  simp [Entity.move_once, combine_zero, cap_zero]

/-- C10, confirmed: a freshly created bullet has `max_velocity = (0,0)`, so
the componentwise cap zeroes its velocity at the end of its first movement
update and of every later one, and its coordinates never change after the
first update. -/
theorem bullet_c10 (e : Entity) (ycc : Int → Coordinates) (fresh : Nat)
    (c : Cannon) (n : Nat) (hn : 1 ≤ n) :
    (Entity.move_once^[n] (e.create_bullet ycc fresh c)).velocity = ⟨0, 0⟩ ∧
    (Entity.move_once^[n] (e.create_bullet ycc fresh c)).coordinates =
      ((e.create_bullet ycc fresh c).move_once).coordinates := by
  obtain ⟨k, rfl⟩ : ∃ k, n = k + 1 := ⟨n - 1, by omega⟩
  rw [Function.iterate_succ_apply]
  have hm : ((e.create_bullet ycc fresh c).move_once).max_velocity = ⟨0, 0⟩ := rfl
  have hv : ((e.create_bullet ycc fresh c).move_once).velocity = ⟨0, 0⟩ :=
    move_once_velocity_zero _ rfl
  rw [Function.iterate_fixed (move_once_fixed _ hv hm) k]
  exact ⟨hv, rfl⟩

/-- C10, witness at a concrete bullet and one movement update. -/
theorem bullet_c10_witness :
    (Entity.move_once^[1] (ent0.create_bullet dirYawZero 2 cannonZ)).velocity = ⟨0, 0⟩ ∧
    (Entity.move_once^[1] (ent0.create_bullet dirYawZero 2 cannonZ)).coordinates =
      ((ent0.create_bullet dirYawZero 2 cannonZ).move_once).coordinates :=
  bullet_c10 ent0 dirYawZero 2 cannonZ 1 (by decide)

/-! Claim C2. -/

/-- C2, confirmed against the spec-modelled `update_movement`: for a
non-negative arena extent, an entity whose coordinates lie in
`[-map_size, +map_size]²` still lies in that square after any number of
movement updates, regardless of its velocity, because each update clamps
both coordinate components back into the square. -/
theorem update_movement_c2 (m : ℚ) (e : Entity) (hm : 0 ≤ m)
    (hx : |e.coordinates.x| ≤ m) (hy : |e.coordinates.y| ≤ m) (n : Nat) :
    |((fun a => Entity.update_movement a m)^[n] e).coordinates.x| ≤ m ∧
    |((fun a => Entity.update_movement a m)^[n] e).coordinates.y| ≤ m := by
  induction n with
  | zero => exact ⟨hx, hy⟩
  | succ k ih =>
    rw [Function.iterate_succ_apply']
    exact ⟨clampTo_abs_le hm _, clampTo_abs_le hm _⟩

/-- C2, witness at `map_size = 100`, the origin entity and three updates. -/
theorem update_movement_c2_witness :
    |((fun a => Entity.update_movement a 100)^[3] ent0).coordinates.x| ≤ 100 ∧
    |((fun a => Entity.update_movement a 100)^[3] ent0).coordinates.y| ≤ 100 :=
  update_movement_c2 100 ent0 (by norm_num)
    (by simp [ent0]) (by simp [ent0]) 3

/-! Claim C3. -/

/-- C3, amended: an operation on the grid is a no-op exactly when the
computed cell index `I/10 · cell_y + cell_x` falls outside the 100 tiles —
then `get_mut` returns `None`, `add` returns `false`, and `add` and `remove`
leave every tile unchanged.  `|pos.y| ≥ map_size` forces this, but a
position with only `|pos.x| ≥ map_size` can wrap into a tile of a later row
and be treated as in range (see the counterexample). -/
theorem grid_c3 (g : PlayerPositions) (pos : Coordinates) (id : Nat)
    (hs : g.scale ≠ 0) (hlen : g.tiles.length = 100)
    (hidx : 100 ≤ 100 / 10 * (f64ToUsize |pos.y| / g.scale) +
      f64ToUsize |pos.x| / g.scale) :
    g.get_mut pos = some none ∧
    g.add pos id = some (g, false) ∧
    g.remove pos id = some g := by
  have hi : g.index pos =
      some (100 / 10 * (f64ToUsize |pos.y| / g.scale) +
        f64ToUsize |pos.x| / g.scale) := by
    simp [PlayerPositions.index, hs]
  have hnone : g.tiles[(100 / 10 * (f64ToUsize |pos.y| / g.scale) +
        f64ToUsize |pos.x| / g.scale)]? = none := by
    rw [List.getElem?_eq_none_iff]
    omega
  refine ⟨?_, ?_, ?_⟩
  · simp [PlayerPositions.get_mut, hi, hnone]
  · simp [PlayerPositions.add, hi, hnone]
  · simp [PlayerPositions.remove, hi, hnone]

/-- C3, counterexample to the claim as stated: with `map_size = 100` the
position `(100, 0)` has `|pos.x| ≥ map_size`, yet `get_mut` returns the
(empty) tile 10 rather than `None`, and `add` inserts the id there and
returns `true`, changing the grid. -/
theorem grid_c3_counterexample :
    ((PlayerPositions.new 100).add ⟨100, 0⟩ 1).map
      (fun p => (p.2, p.1.tiles.get? 10)) = some (true, some [1]) ∧
    (PlayerPositions.new 100).get_mut ⟨100, 0⟩ = some (some []) ∧
    (100 : ℚ) ≤ |(100 : ℚ)| := by
  refine ⟨by decide, by decide, by decide⟩

/-- C3, witness for the amended theorem: the position `(0, 1000)` with
`|pos.y| ≥ map_size = 100` is rejected by every operation. -/
theorem grid_c3_witness :
    (PlayerPositions.new 100).get_mut ⟨0, 1000⟩ = some none ∧
    (PlayerPositions.new 100).add ⟨0, 1000⟩ 7 = some (PlayerPositions.new 100, false) ∧
    (PlayerPositions.new 100).remove ⟨0, 1000⟩ 7 = some (PlayerPositions.new 100) :=
  grid_c3 (PlayerPositions.new 100) ⟨0, 1000⟩ 7 (by decide) (by decide) (by decide)

/-! Claim C9. -/

/-- If the cell index computation succeeds, so does every grid operation. -/
theorem grid_ops_total (g : PlayerPositions) (pos : Coordinates) (id : Nat)
    (h : (g.index pos).isSome) :
    (g.get_mut pos).isSome ∧ (g.add pos id).isSome ∧ (g.remove pos id).isSome := by
  obtain ⟨i, hi⟩ := Option.isSome_iff_exists.mp h
  refine ⟨?_, ?_, ?_⟩
  · simp [PlayerPositions.get_mut, hi]
  · unfold PlayerPositions.add
    rw [hi]
    simp only []
    cases g.tiles.get? i with
    | none => rfl
    | some tile =>
      simp only []
      split <;> rfl
  · unfold PlayerPositions.remove
    rw [hi]
    simp only []
    cases g.tiles.get? i with
    | none => rfl
    | some tile => rfl

/-- C9, confirmed: `PlayerPositions::new(size)` computes
`scale = size as usize / 10`, so for `map_size < 10` the scale is 0 and
`index` — hence `get_mut`, `add` and `remove` — panics with a division by
zero at every position, while for `map_size ≥ 10` the scale is at least 1
and every grid operation is total. -/
theorem grid_c9 (size : ℚ) :
    (size < 10 → (PlayerPositions.new size).scale = 0 ∧
      ∀ pos : Coordinates, (PlayerPositions.new size).index pos = none ∧
        (PlayerPositions.new size).get_mut pos = none ∧
        ∀ id, (PlayerPositions.new size).add pos id = none ∧
          (PlayerPositions.new size).remove pos id = none) ∧
    (10 ≤ size → 1 ≤ (PlayerPositions.new size).scale ∧
      ∀ pos : Coordinates, ((PlayerPositions.new size).index pos).isSome ∧
        ((PlayerPositions.new size).get_mut pos).isSome ∧
        ∀ id, ((PlayerPositions.new size).add pos id).isSome ∧
          ((PlayerPositions.new size).remove pos id).isSome) := by
  constructor
  · intro hlt
    have hfl : ⌊size⌋ < 10 := Int.floor_lt.mpr (by exact_mod_cast hlt)
    have hsc : (PlayerPositions.new size).scale = 0 := by
      simp only [PlayerPositions.new, f64ToUsize]
      omega
    refine ⟨hsc, fun pos => ?_⟩
    have hidx : (PlayerPositions.new size).index pos = none := by
      simp [PlayerPositions.index, hsc]
    refine ⟨hidx, ?_, fun id => ⟨?_, ?_⟩⟩
    · simp [PlayerPositions.get_mut, hidx]
    · simp [PlayerPositions.add, hidx]
    · simp [PlayerPositions.remove, hidx]
  · intro hge
    have hfl : 10 ≤ ⌊size⌋ := Int.le_floor.mpr (by exact_mod_cast hge)
    have hsc : 1 ≤ (PlayerPositions.new size).scale := by
      simp only [PlayerPositions.new, f64ToUsize]
      omega
    refine ⟨hsc, fun pos => ?_⟩
    have hidx : ((PlayerPositions.new size).index pos).isSome := by
      simp [PlayerPositions.index]
      omega
    obtain ⟨h1, h2, h3⟩ := grid_ops_total (PlayerPositions.new size) pos 0 hidx
    exact ⟨hidx, h1, fun id => ⟨(grid_ops_total _ pos id hidx).2.1,
      (grid_ops_total _ pos id hidx).2.2⟩⟩

/-- C9, witness at `map_size = 5` (division by zero) and `map_size = 100`
(total). -/
theorem grid_c9_witness :
    ((PlayerPositions.new 5).scale = 0 ∧
      (PlayerPositions.new 5).index ⟨3, 3⟩ = none) ∧
    (1 ≤ (PlayerPositions.new 100).scale ∧
      ((PlayerPositions.new 100).index ⟨3, 3⟩).isSome) := by
  have h5 := (grid_c9 5).1 (by norm_num)
  have h100 := (grid_c9 100).2 (by norm_num)
  exact ⟨⟨h5.1, (h5.2 ⟨3, 3⟩).1⟩, ⟨h100.1, (h100.2 ⟨3, 3⟩).1⟩⟩

end Game
